import Mathlib

/-!
Verification development for the scenario-driven energy-scheduling pipeline
in `src/1b-scenarios.py`.

The script builds, for each scenario, a 24-hour optimization model (decision
variables with bounds, four equality constraints per hour, a minimization
objective), hands it to an external solver, and aggregates per-scenario
objective values into a summary table.

The shallow embedding below mirrors the Python source:
* numeric data is embedded as rationals;
* hourly profiles (Python lists indexed by hour 0..23) are embedded as
  functions from hour indices to rationals;
* the external solver is opaque: its response (a status, an optional loaded
  solution, an optional objective value) is a parameter of the per-scenario
  routine, matching the attribute semantics of the solver library (reading
  `var.X` or `model.ObjVal` raises when no solution / objective is loaded);
* filesystem and console side effects are recorded as an explicit trace;
* the JSON load phase of the `__main__` block is embedded over a small JSON
  value type with Python dict/list item-access semantics.
-/

/-- The kind of a decision variable of the model: scheduled load `L`,
PV used `u`, PV curtailed `c`, grid import and export, hourly cost `HC`,
and discomfort `D` (source lines 37-44). -/
inductive VarKind
  | L
  | u
  | c
  | gImp
  | gExp
  | HC
  | D
deriving DecidableEq, Repr

/-- A decision variable of the model, identified by kind and hour
(the source creates one variable of each kind per hour `t` in 0..23). -/
structure VarId where
  kind : VarKind
  hour : ℕ
deriving DecidableEq, Repr

/-- Arithmetic expressions appearing in constraints and the objective of the
constructed model: variables, rational constants, sums, differences, scalar
multiples and squares (`nlfunc.square` in the source). -/
inductive Expr
  | var : VarId → Expr
  | const : ℚ → Expr
  | add : Expr → Expr → Expr
  | sub : Expr → Expr → Expr
  | smul : ℚ → Expr → Expr
  | square : Expr → Expr
deriving DecidableEq, Repr

/-- Evaluate an expression under an assignment of rationals to variables. -/
def Expr.eval (a : VarId → ℚ) : Expr → ℚ
  | Expr.var v => a v
  | Expr.const q => q
  | Expr.add e₁ e₂ => e₁.eval a + e₂.eval a
  | Expr.sub e₁ e₂ => e₁.eval a - e₂.eval a
  | Expr.smul q e => q * e.eval a
  | Expr.square e => (e.eval a) ^ 2

/-- The list of variables mentioned by an expression. -/
def Expr.vars : Expr → List VarId
  | Expr.var v => [v]
  | Expr.const _ => []
  | Expr.add e₁ e₂ => e₁.vars ++ e₂.vars
  | Expr.sub e₁ e₂ => e₁.vars ++ e₂.vars
  | Expr.smul _ e => e.vars
  | Expr.square e => e.vars

/-- An equality constraint of the model (`addLConstr`/`addConstr` with
`GRB.EQUAL`/`==` in the source): a name and the two sides of the equation. -/
structure Constr where
  name : String
  lhs : Expr
  rhs : Expr
deriving DecidableEq, Repr

/-- All variables mentioned by a constraint. -/
def Constr.varIds (c : Constr) : List VarId := c.lhs.vars ++ c.rhs.vars

/-- Whether a constraint mentions some variable of hour `t`. -/
def Constr.mentionsHour (c : Constr) (t : ℕ) : Bool :=
  c.varIds.any fun v => v.hour == t

/-- Variable bounds: `none` stands for an infinite bound
(the source uses `lb = 0.0`, `ub = float("inf")`). -/
structure VarBounds where
  lb : Option ℚ
  ub : Option ℚ
deriving DecidableEq, Repr

/-- The arguments of `run_model_1b` (source lines 10-23).  Hourly profiles
(`Pt_PV`, `pt`, `Lt_ref`) are embedded as functions on hour indices.
`alpha` defaults to `10` and the model tag (the `model_` `prefix` argument of
the source) defaults to `"1b"`, as in the Python signature. -/
structure ModelArgs where
  scenario : String
  Lmin_t : ℚ
  Lmax_t : ℚ
  Pt_PV : ℕ → ℚ
  pt : ℕ → ℚ
  Lt_ref : ℕ → ℚ
  max_import_kW : ℚ
  max_export_kW : ℚ
  tau_imp : ℚ
  tau_exp : ℚ
  alpha : ℚ := 10
  modelTag : String := "1b"

/-- The hours of the model: `HOURS = list(range(24))` (source line 32). -/
def HOURS : List ℕ := List.range 24

/-- Bounds of each decision variable, as declared by the `addVar` calls of
the source (lines 37-44): `L` in `[Lmin_t, Lmax_t]`, `u`, `c`, `D` in
`[0, inf)`, import in `[0, max_import_kW]`, export in `[0, max_export_kW]`,
`HC` free in both directions. -/
def bounds (args : ModelArgs) : VarId → VarBounds
  | ⟨VarKind.L, _⟩ => ⟨some args.Lmin_t, some args.Lmax_t⟩
  | ⟨VarKind.u, _⟩ => ⟨some 0, none⟩
  | ⟨VarKind.c, _⟩ => ⟨some 0, none⟩
  | ⟨VarKind.gImp, _⟩ => ⟨some 0, some args.max_import_kW⟩
  | ⟨VarKind.gExp, _⟩ => ⟨some 0, some args.max_export_kW⟩
  | ⟨VarKind.HC, _⟩ => ⟨none, none⟩
  | ⟨VarKind.D, _⟩ => ⟨some 0, none⟩

/-- PV allocation constraint of hour `t`:
`ut[t] + ct[t] == Pt_PV[t]` (source line 49). -/
def pvAllocation (args : ModelArgs) (t : ℕ) : Constr :=
  ⟨"PV_allocation_" ++ toString t,
   Expr.add (Expr.var ⟨VarKind.u, t⟩) (Expr.var ⟨VarKind.c, t⟩),
   Expr.const (args.Pt_PV t)⟩

/-- Energy balance constraint of hour `t`:
`ut[t] + gt_imp[t] == Lt[t] + gt_exp[t]` (source line 50). -/
def energyBalance (t : ℕ) : Constr :=
  ⟨"Energy_balance_" ++ toString t,
   Expr.add (Expr.var ⟨VarKind.u, t⟩) (Expr.var ⟨VarKind.gImp, t⟩),
   Expr.add (Expr.var ⟨VarKind.L, t⟩) (Expr.var ⟨VarKind.gExp, t⟩)⟩

/-- Hourly cost constraint of hour `t`:
`(pt[t] + tau_imp) * gt_imp[t] - (pt[t] - tau_exp) * gt_exp[t] == HCt[t]`
(source line 51). -/
def hourlyCost (args : ModelArgs) (t : ℕ) : Constr :=
  ⟨"Hourly_cost_" ++ toString t,
   Expr.sub (Expr.smul (args.pt t + args.tau_imp) (Expr.var ⟨VarKind.gImp, t⟩))
            (Expr.smul (args.pt t - args.tau_exp) (Expr.var ⟨VarKind.gExp, t⟩)),
   Expr.var ⟨VarKind.HC, t⟩⟩

/-- Discomfort constraint of hour `t`:
`nlfunc.square(Lt_ref[t] - Lt[t]) == Dt[t]` (source line 52). -/
def discomfort (args : ModelArgs) (t : ℕ) : Constr :=
  ⟨"Discomfort_" ++ toString t,
   Expr.square (Expr.sub (Expr.const (args.Lt_ref t)) (Expr.var ⟨VarKind.L, t⟩)),
   Expr.var ⟨VarKind.D, t⟩⟩

/-- The four constraints added by one iteration of the constraint loop
(source lines 48-52). -/
def hourConstraints (args : ModelArgs) (t : ℕ) : List Constr :=
  [pvAllocation args t, energyBalance t, hourlyCost args t, discomfort args t]

/-- All constraints of the model: the constraint loop runs over `HOURS`. -/
def buildConstraints (args : ModelArgs) : List Constr :=
  HOURS.flatMap (hourConstraints args)

/-- Optimization direction. The source uses `GRB.MINIMIZE`. -/
inductive Sense
  | minimize
  | maximize
deriving DecidableEq, Repr

/-- The objective expression submitted to the solver:
`quicksum(alpha * Dt[t] + HCt[t] for t in HOURS)` (source line 54). -/
def objectiveExpr (args : ModelArgs) : Expr :=
  (HOURS.map fun t =>
    Expr.add (Expr.smul args.alpha (Expr.var ⟨VarKind.D, t⟩)) (Expr.var ⟨VarKind.HC, t⟩)).foldr
    Expr.add (Expr.const 0)

/-- An objective: a direction and an expression. -/
structure Objective where
  sense : Sense
  expr : Expr

/-- The constructed optimization model of one scenario: variable bounds,
equality constraints, and the objective (source lines 31-55). -/
structure Model where
  varBounds : VarId → VarBounds
  constrs : List Constr
  objective : Objective

/-- Build the model exactly as `run_model_1b` does before calling
`model.optimize()`. -/
def buildModel (args : ModelArgs) : Model :=
  ⟨bounds args, buildConstraints args, ⟨Sense.minimize, objectiveExpr args⟩⟩

/-- Solver termination status (`model.status` after `model.optimize()`):
optimal, infeasible, unbounded, or any other status code. -/
inductive Status
  | optimal
  | infeasible
  | unbounded
  | other : ℕ → Status
deriving DecidableEq, Repr

/-- The response of the external solve capability: the status, the loaded
solution if any (reading `var.X` raises when it is absent), and the loaded
objective value if any (reading `model.ObjVal` raises when it is absent). -/
structure SolveOutcome where
  status : Status
  sol : Option (VarId → ℚ)
  objVal : Option ℚ

/-- The error raised by the solver library when an attribute such as `X` or
`ObjVal` is read but not available on the model. -/
inductive GurobiError
  | attrUnavailable : String → GurobiError
deriving DecidableEq, Repr

/-- Observable side effects of `run_model_1b`, in program order: directory
creation, model construction, the solve call, console prints, and plot-image
writes (`plt.savefig`).  The `plt.show()`/`plt.close()` display calls are
scoped to the call and not recorded. -/
inductive Effect
  | mkdir : String → Effect
  | build : Effect
  | solve : Effect
  | print : String → Effect
  | savefig : String → Effect
deriving DecidableEq, Repr

/-- The fixed results directory (source line 28). -/
def results_folder : String := "src/scenario-results"

/-- Render of an optional objective value inside the success message; the
`:.3f` float formatting of the source is abstracted to a plain render. -/
def fmtObjVal : Option ℚ → String
  | some v => toString v
  | none => ""

/-- The status message printed after the solve (source lines 58-66). -/
def statusMessage (scenario : String) (oc : SolveOutcome) : String :=
  match oc.status with
  | Status.optimal =>
      "Optimization " ++ scenario ++ " successful! Objective = " ++ fmtObjVal oc.objVal
  | Status.infeasible => "Model " ++ scenario ++ " is infeasible."
  | Status.unbounded => " Model " ++ scenario ++ " is unbounded."
  | Status.other code => "Optimization ended with status: " ++ toString code

/-- Path of the first plot image,
`os.path.join(results_folder, f"...-AllDecisionVariables.png")`
(source line 93). -/
def plotPath1 (args : ModelArgs) : String :=
  results_folder ++ "/" ++ args.modelTag ++ "-scenario-" ++ args.scenario ++
    "-AllDecisionVariables.png"

/-- Path of the second plot image,
`os.path.join(results_folder, f"...-EnergyPriceVsGrid.png")`
(source line 112). -/
def plotPath2 (args : ModelArgs) : String :=
  results_folder ++ "/" ++ args.modelTag ++ "-scenario-" ++ args.scenario ++
    "-EnergyPriceVsGrid.png"

/-- The value returned by `run_model_1b` (source lines 115-122): the five
per-hour trajectories and the objective (`None` when not optimal). -/
structure ScenarioResult where
  Lt : List ℚ
  ut : List ℚ
  ct : List ℚ
  gt_imp : List ℚ
  gt_exp : List ℚ
  objective : Option ℚ
deriving DecidableEq, Repr

/-- Shallow embedding of `run_model_1b` (source lines 10-122), relative to a
solver response `oc`.  Following the source in order: create the results
directory, build the model, call the solver, print the status message (the
optimal-branch message reads `model.ObjVal`, which raises when unavailable),
then unconditionally extract `var.X` for every variable — which raises the
attribute error when no solution is loaded (the infeasible and unbounded
cases) — then write the two plot images and return the trajectories together
with `model.ObjVal if model.status == GRB.OPTIMAL else None`.
Returns the trace of effects and either the raised error or the result. -/
def run_model_1b (args : ModelArgs) (oc : SolveOutcome) :
    List Effect × Except GurobiError ScenarioResult :=
  let preTrace : List Effect := [Effect.mkdir results_folder, Effect.build, Effect.solve]
  if oc.status = Status.optimal ∧ oc.objVal = none then
    (preTrace, Except.error (GurobiError.attrUnavailable "ObjVal"))
  else
    let printed : List Effect := preTrace ++ [Effect.print (statusMessage args.scenario oc)]
    match oc.sol with
    | none => (printed, Except.error (GurobiError.attrUnavailable "X"))
    | some a =>
        (printed ++ [Effect.savefig (plotPath1 args), Effect.savefig (plotPath2 args)],
         Except.ok
           { Lt := HOURS.map fun t => a ⟨VarKind.L, t⟩
             ut := HOURS.map fun t => a ⟨VarKind.u, t⟩
             ct := HOURS.map fun t => a ⟨VarKind.c, t⟩
             gt_imp := HOURS.map fun t => a ⟨VarKind.gImp, t⟩
             gt_exp := HOURS.map fun t => a ⟨VarKind.gExp, t⟩
             objective := if oc.status = Status.optimal then oc.objVal else none })

/-- A scenario record, as consumed by the `__main__` loop (source lines
146-160): id, hourly price profile, import/export caps, tariffs. -/
structure Scenario where
  scenario : String
  energy_price_DKK_per_kWh : ℕ → ℚ
  max_import_kW : ℚ
  max_export_kW : ℚ
  import_tariff_DKK_per_kWh : ℚ
  export_tariff_DKK_per_kWh : ℚ

/-- The shared profiles loaded once before the loop (source lines 138-141). -/
structure SharedParams where
  Lmax_t : ℚ
  Pt_PV : ℕ → ℚ
  Lt_ref : ℕ → ℚ

/-- `Lmin_t = 0.0` of the `__main__` block (source line 139). -/
def Lmin_t : ℚ := 0

/-- The argument bundle of the `run_model_1b` call inside the `__main__`
loop (source lines 148-161): `Lmin_t` is the literal `0.0`, the price and
caps and tariffs come from the scenario record, `alpha` is not passed (so
the default `10` applies) and the model tag is `"1b"`. -/
def scenarioArgs (shared : SharedParams) (sc : Scenario) : ModelArgs :=
  { scenario := sc.scenario
    Lmin_t := Lmin_t
    Lmax_t := shared.Lmax_t
    Pt_PV := shared.Pt_PV
    pt := sc.energy_price_DKK_per_kWh
    Lt_ref := shared.Lt_ref
    max_import_kW := sc.max_import_kW
    max_export_kW := sc.max_export_kW
    tau_imp := sc.import_tariff_DKK_per_kWh
    tau_exp := sc.export_tariff_DKK_per_kWh
    modelTag := "1b" }

/-- One row of `results_summary` (source lines 163-165). -/
structure SummaryRow where
  scenario : String
  primalObjective : Option ℚ
deriving DecidableEq, Repr

/-- The `__main__` scenario loop (source lines 146-165): scenarios are
processed sequentially; each appends one summary row; an exception raised by
`run_model_1b` is uncaught and aborts the whole batch (no summary at all).
The solver responses are supplied by `solver`. -/
def scenarioLoop (shared : SharedParams) (solver : Scenario → SolveOutcome) :
    List Scenario → Except GurobiError (List SummaryRow)
  | [] => Except.ok []
  | sc :: rest =>
      match (run_model_1b (scenarioArgs shared sc) (solver sc)).2 with
      | Except.error e => Except.error e
      | Except.ok r =>
          match scenarioLoop shared solver rest with
          | Except.error e => Except.error e
          | Except.ok rows => Except.ok (⟨sc.scenario, r.objective⟩ :: rows)

/-- The final console output (source lines 167-172): either the no-results
message or the summary table. -/
inductive SummaryOutput
  | noResults : String → SummaryOutput
  | table : List SummaryRow → SummaryOutput
deriving DecidableEq, Repr

/-- `if not results_summary: print(...) else: ... print(df_results)`
(source lines 167-172). -/
def summaryOutput (rows : List SummaryRow) : SummaryOutput :=
  if rows.isEmpty then
    SummaryOutput.noResults "No results found. Please run the scenarios first."
  else
    SummaryOutput.table rows

/-- A JSON value, as produced by `json.load` in the `__main__` block. -/
inductive Json
  | null : Json
  | num : ℚ → Json
  | str : String → Json
  | arr : List Json → Json
  | obj : List (String × Json) → Json

/-- Python errors that item access on a decoded JSON value can raise. -/
inductive PyError
  | keyError : String → PyError
  | indexError : PyError
  | typeError : PyError
deriving DecidableEq, Repr

/-- Python `x["k"]`: key lookup on a dict; raises `KeyError` when the key is
absent and `TypeError` when `x` is not a dict. -/
def Json.getItemKey : Json → String → Except PyError Json
  | Json.obj fields, k =>
      match fields.lookup k with
      | some v => Except.ok v
      | none => Except.error (PyError.keyError k)
  | _, _ => Except.error PyError.typeError

/-- Python `x[i]` for an integer `i`: list indexing; raises `IndexError` when
out of range, `KeyError` on a (string-keyed) dict decoded from JSON, and
`TypeError` otherwise. -/
def Json.getItemIdx : Json → ℕ → Except PyError Json
  | Json.arr xs, i =>
      match xs[i]? with
      | some v => Except.ok v
      | none => Except.error PyError.indexError
  | Json.obj _, i => Except.error (PyError.keyError (toString i))
  | _, _ => Except.error PyError.typeError

/-- The values bound by the load phase of the `__main__` block
(source lines 128-142), before the scenario loop starts. -/
structure LoadedParams where
  Lmin_t : ℚ
  Lmax_t : Json
  Pt_PV : Json
  Lt_ref : Json
  scenarios : Json

/-- Shallow embedding of the load phase (source lines 128-142): after the
five `json.load` calls, the block binds `Lmin_t = 0.0`,
`Lmax_t = appl_params["load"][0]["max_load_kWh_per_hour"]`,
`Pt_PV = der_production[0]["hourly_profile_ratio"]`,
`Lt_ref = usage_preference[0]["load_preferences"][0]["hourly_profile_ratio"]`.
Any failing access aborts (the exception is uncaught).  No length or type
validation is performed.  `bus_params` is loaded but never used. -/
def loadPhase (bus_params der_production appl_params usage_preference scenarios : Json) :
    Except PyError LoadedParams := do
  let loads ← appl_params.getItemKey "load"
  let load0 ← loads.getItemIdx 0
  let lmax ← load0.getItemKey "max_load_kWh_per_hour"
  let der0 ← der_production.getItemIdx 0
  let pv ← der0.getItemKey "hourly_profile_ratio"
  let usage0 ← usage_preference.getItemIdx 0
  let prefs ← usage0.getItemKey "load_preferences"
  let pref0 ← prefs.getItemIdx 0
  let lref ← pref0.getItemKey "hourly_profile_ratio"
  Except.ok ⟨0, lmax, pv, lref, scenarios⟩

/-- Whether a decoded JSON value is a dict carrying key `k`. -/
def HasField : Json → String → Prop
  | Json.obj fields, k => (fields.lookup k).isSome = true
  | _, _ => False

/-- Whether a decoded JSON value is a list with an entry at index `i`. -/
def HasIdx : Json → ℕ → Prop
  | Json.arr xs, i => i < xs.length
  | _, _ => False

/-- Field projection used to state shape conditions (total, defaulting to
`null`; only meaningful under `HasField`). -/
def fieldOf : Json → String → Json
  | Json.obj fields, k => (fields.lookup k).getD Json.null
  | _, _ => Json.null

/-- Index projection used to state shape conditions (total, defaulting to
`null`; only meaningful under `HasIdx`). -/
def idxOf : Json → ℕ → Json
  | Json.arr xs, i => xs.getD i Json.null
  | _, _ => Json.null

/-- The structural conditions on the three input bundles whose fields the
load phase accesses: every key and index along the three access paths is
present.  Note that no condition on profile lengths appears here. -/
def RequiredShape (der_production appl_params usage_preference : Json) : Prop :=
  HasField appl_params "load" ∧
  HasIdx (fieldOf appl_params "load") 0 ∧
  HasField (idxOf (fieldOf appl_params "load") 0) "max_load_kWh_per_hour" ∧
  HasIdx der_production 0 ∧
  HasField (idxOf der_production 0) "hourly_profile_ratio" ∧
  HasIdx usage_preference 0 ∧
  HasField (idxOf usage_preference 0) "load_preferences" ∧
  HasIdx (fieldOf (idxOf usage_preference 0) "load_preferences") 0 ∧
  HasField (idxOf (fieldOf (idxOf usage_preference 0) "load_preferences") 0)
    "hourly_profile_ratio"

/-- Folding expression sums evaluates to the list sum of the summands. -/
lemma eval_foldr_add (a : VarId → ℚ) (l : List Expr) :
    Expr.eval a (l.foldr Expr.add (Expr.const 0)) = (l.map (Expr.eval a)).sum := by
  induction l with
  | nil => simp [Expr.eval]
  | cons x xs ih => simp [Expr.eval, ih]

/-- Sum of a map over `List.range` equals the `Finset.range` sum. -/
lemma range_map_sum (f : ℕ → ℚ) (n : ℕ) :
    ((List.range n).map f).sum = ∑ t in Finset.range n, f t := by
  induction n with
  | zero => simp
  | succ m ih => rw [List.range_succ, List.map_append, List.sum_append,
      Finset.sum_range_succ, ih]; simp

/-- Claim C4: for every scenario, the objective submitted to the solver is
the minimization of the sum over all 24 hours of `alpha * D_t + HC_t`, and
the main-loop invocation leaves `alpha` at its default value 10. -/
theorem claim_C4_objective (args : ModelArgs) (a : VarId → ℚ)
    (shared : SharedParams) (sc : Scenario) :
    (buildModel args).objective.sense = Sense.minimize ∧
    Expr.eval a (buildModel args).objective.expr =
      ∑ t in Finset.range 24, (args.alpha * a ⟨VarKind.D, t⟩ + a ⟨VarKind.HC, t⟩) ∧
    (scenarioArgs shared sc).alpha = 10 := by
  refine ⟨rfl, ?_, rfl⟩
  show Expr.eval a (objectiveExpr args) = _
  rw [objectiveExpr, eval_foldr_add, List.map_map]
  have : (Expr.eval a ∘ fun t =>
      Expr.add (Expr.smul args.alpha (Expr.var ⟨VarKind.D, t⟩)) (Expr.var ⟨VarKind.HC, t⟩)) =
      fun t => args.alpha * a ⟨VarKind.D, t⟩ + a ⟨VarKind.HC, t⟩ := by
    funext t; simp [Expr.eval]
  rw [this, HOURS, range_map_sum]

/-- Claim C5: in the model built for a main-loop scenario, the declared
bounds are `L_t` in `[0, Lmax_t]` (the main block passes `Lmin_t = 0.0`),
grid import in `[0, max_import_kW]`, export in `[0, max_export_kW]`,
`u_t, c_t, D_t` nonnegative and unbounded above, and `HC_t` free in both
directions. -/
theorem claim_C5_bounds (shared : SharedParams) (sc : Scenario) (t : ℕ) :
    (buildModel (scenarioArgs shared sc)).varBounds ⟨VarKind.L, t⟩ =
      ⟨some 0, some shared.Lmax_t⟩ ∧
    (buildModel (scenarioArgs shared sc)).varBounds ⟨VarKind.gImp, t⟩ =
      ⟨some 0, some sc.max_import_kW⟩ ∧
    (buildModel (scenarioArgs shared sc)).varBounds ⟨VarKind.gExp, t⟩ =
      ⟨some 0, some sc.max_export_kW⟩ ∧
    (buildModel (scenarioArgs shared sc)).varBounds ⟨VarKind.u, t⟩ = ⟨some 0, none⟩ ∧
    (buildModel (scenarioArgs shared sc)).varBounds ⟨VarKind.c, t⟩ = ⟨some 0, none⟩ ∧
    (buildModel (scenarioArgs shared sc)).varBounds ⟨VarKind.D, t⟩ = ⟨some 0, none⟩ ∧
    (buildModel (scenarioArgs shared sc)).varBounds ⟨VarKind.HC, t⟩ = ⟨none, none⟩ :=
  ⟨rfl, rfl, rfl, rfl, rfl, rfl, rfl⟩

/-- Claim C8: for the empty scenario list the loop produces zero summary
rows, and the final output is the no-results message, not a table. -/
theorem claim_C8_empty (shared : SharedParams) (solver : Scenario → SolveOutcome) :
    scenarioLoop shared solver [] = Except.ok [] ∧
    summaryOutput [] =
      SummaryOutput.noResults "No results found. Please run the scenarios first." :=
  ⟨rfl, rfl⟩

/-- Every constraint added in iteration `t` of the constraint loop mentions
variables of hour `t` only. -/
lemma hourConstraints_vars (args : ModelArgs) (t : ℕ) :
    ∀ c ∈ hourConstraints args t, ∀ v ∈ c.varIds, v.hour = t := by
  intro c hc v hv
  simp only [hourConstraints, List.mem_cons, List.mem_singleton, List.not_mem_nil,
    or_false] at hc
  rcases hc with rfl | rfl | rfl | rfl <;>
    simp [Constr.varIds, Expr.vars, pvAllocation, energyBalance, hourlyCost,
      discomfort] at hv <;>
    rcases hv with rfl | rfl | rfl | rfl <;> rfl

/-- The four constraints of iteration `t` all pass the mentions-hour-`t`
filter. -/
lemma hourConstraints_filter_self (args : ModelArgs) (t : ℕ) :
    (hourConstraints args t).filter (fun c => c.mentionsHour t) = hourConstraints args t := by
  simp [hourConstraints, Constr.mentionsHour, Constr.varIds, Expr.vars,
    pvAllocation, energyBalance, hourlyCost, discomfort, List.filter]

/-- Constraints of a different iteration do not pass the filter. -/
lemma hourConstraints_filter_ne (args : ModelArgs) {t u₀ : ℕ} (h : u₀ ≠ t) :
    (hourConstraints args u₀).filter (fun c => c.mentionsHour t) = [] := by
  have hb : (u₀ == t) = false := by simpa using h
  simp [hourConstraints, Constr.mentionsHour, Constr.varIds, Expr.vars,
    pvAllocation, energyBalance, hourlyCost, discomfort, List.filter, hb]

/-- Filtering a range-indexed concatenation is empty when every group
filters to empty. -/
lemma range_flatMap_filter_nil (g : ℕ → List Constr) (p : Constr → Bool) :
    ∀ n : ℕ, (∀ u₀, u₀ < n → (g u₀).filter p = []) →
      ((List.range n).flatMap g).filter p = [] := by
  intro n
  induction n with
  | zero => intro _; rfl
  | succ m ih =>
      intro h
      rw [List.range_succ, List.flatMap_append, List.filter_append,
        ih (fun u₀ hu => h u₀ (by omega))]
      simp [h m (by omega)]

/-- Filtering a range-indexed concatenation keeps exactly the group of `t`
when that group passes whole and every other group filters to empty. -/
lemma range_flatMap_filter_eq (g : ℕ → List Constr) (p : Constr → Bool) (t : ℕ) :
    ∀ n : ℕ, t < n → (∀ u₀, (g u₀).filter p = if u₀ = t then g u₀ else []) →
      ((List.range n).flatMap g).filter p = g t := by
  intro n
  induction n with
  | zero => intro ht _; omega
  | succ m ih =>
      intro ht h
      rw [List.range_succ, List.flatMap_append, List.filter_append]
      rcases Nat.lt_succ_iff_lt_or_eq.mp ht with h1 | h1
      · rw [ih h1 h]
        have hm : (g m).filter p = [] := by rw [h m, if_neg (by omega)]
        simp [hm]
      · subst h1
        have hnil : ((List.range t).flatMap g).filter p = [] :=
          range_flatMap_filter_nil g p t (fun u₀ hu => by rw [h u₀, if_neg (by omega)])
        rw [hnil]
        simp [h t]

/-- Claim C3: for every scenario and hour `t < 24`, the constraints of the
constructed model that mention hour `t` are exactly the four of the loop
body — PV allocation `u_t + c_t = Pt_PV[t]`, energy balance
`u_t + g_imp_t = L_t + g_exp_t`, hourly cost
`(pt[t] + tau_imp) g_imp_t - (pt[t] - tau_exp) g_exp_t = HC_t`, and
discomfort `(Lt_ref[t] - L_t)^2 = D_t` — and no constraint of the model
couples distinct hours. -/
theorem claim_C3_constraints (args : ModelArgs) (t : ℕ) (ht : t < 24) :
    (buildModel args).constrs.filter (fun c => c.mentionsHour t) =
      [pvAllocation args t, energyBalance t, hourlyCost args t, discomfort args t] ∧
    ∀ c ∈ (buildModel args).constrs, ∀ v ∈ c.varIds, ∀ w ∈ c.varIds, v.hour = w.hour := by
  constructor
  · show (buildConstraints args).filter _ = _
    rw [buildConstraints, HOURS]
    exact range_flatMap_filter_eq _ _ t 24 ht (fun u₀ => by
      by_cases hu : u₀ = t
      · rw [hu, if_pos rfl]; exact hourConstraints_filter_self args t
      · rw [if_neg hu]; exact hourConstraints_filter_ne args hu)
  · intro c hc v hv w hw
    have hmem : ∃ u₀, u₀ ∈ List.range 24 ∧ c ∈ hourConstraints args u₀ := by
      simpa [buildModel, buildConstraints, HOURS] using hc
    obtain ⟨u₀, _, hcu⟩ := hmem
    rw [hourConstraints_vars args u₀ c hcu v hv, hourConstraints_vars args u₀ c hcu w hw]

/-- A concrete argument bundle used to instantiate the general theorems. -/
def argsW : ModelArgs :=
  { scenario := "S1", Lmin_t := 0, Lmax_t := 5, Pt_PV := fun _ => 1, pt := fun _ => 2,
    Lt_ref := fun _ => 1, max_import_kW := 3, max_export_kW := 3, tau_imp := 1,
    tau_exp := 1 }

/-- Witness for claim C3 at the concrete bundle `argsW` and hour 3. -/
theorem claim_C3_witness :
    ((buildModel argsW).constrs.filter (fun c => c.mentionsHour 3) =
      [pvAllocation argsW 3, energyBalance 3, hourlyCost argsW 3, discomfort argsW 3]) ∧
    (∀ c ∈ (buildModel argsW).constrs, ∀ v ∈ c.varIds, ∀ w ∈ c.varIds, v.hour = w.hour) :=
  claim_C3_constraints argsW 3 (by norm_num)

/-- Claim C6: whenever `run_model_1b` returns a result, its objective field
is `none` exactly when the solve status is not optimal, and is the objective
value reported by the solver when the status is optimal. -/
theorem claim_C6_objective (args : ModelArgs) (oc : SolveOutcome) (r : ScenarioResult)
    (h : (run_model_1b args oc).2 = Except.ok r) :
    (r.objective = none ↔ ¬ oc.status = Status.optimal) ∧
    (oc.status = Status.optimal → r.objective = oc.objVal ∧ oc.objVal.isSome = true) := by
  unfold run_model_1b at h
  by_cases hcond : oc.status = Status.optimal ∧ oc.objVal = none
  · rw [if_pos hcond] at h
    simp at h
  · rw [if_neg hcond] at h
    cases hsol : oc.sol with
    | none => simp [hsol] at h
    | some a =>
        simp only [hsol] at h
        have hOb : r.objective = (if oc.status = Status.optimal then oc.objVal else none) :=
          (congrArg ScenarioResult.objective (Except.ok.inj h)).symm
        constructor
        · rw [hOb]
          by_cases hopt : oc.status = Status.optimal
          · have hnn : ¬ oc.objVal = none := fun hv => hcond ⟨hopt, hv⟩
            simp [hopt, hnn]
          · simp [hopt]
        · intro hopt
          have hnn : ¬ oc.objVal = none := fun hv => hcond ⟨hopt, hv⟩
          refine ⟨by rw [hOb, if_pos hopt], ?_⟩
          cases hv : oc.objVal with
          | none => exact absurd hv hnn
          | some v => rfl

/-- Claim C9: whenever `run_model_1b` returns a result, the five trajectory
lists are taken from the loaded solution, in hour order 0..23, and each has
exactly 24 entries. -/
theorem claim_C9_trajectories (args : ModelArgs) (oc : SolveOutcome) (r : ScenarioResult)
    (h : (run_model_1b args oc).2 = Except.ok r) :
    ∃ a, oc.sol = some a ∧
      r.Lt = HOURS.map (fun t => a ⟨VarKind.L, t⟩) ∧
      r.ut = HOURS.map (fun t => a ⟨VarKind.u, t⟩) ∧
      r.ct = HOURS.map (fun t => a ⟨VarKind.c, t⟩) ∧
      r.gt_imp = HOURS.map (fun t => a ⟨VarKind.gImp, t⟩) ∧
      r.gt_exp = HOURS.map (fun t => a ⟨VarKind.gExp, t⟩) ∧
      r.Lt.length = 24 ∧ r.ut.length = 24 ∧ r.ct.length = 24 ∧
      r.gt_imp.length = 24 ∧ r.gt_exp.length = 24 := by
  unfold run_model_1b at h
  by_cases hcond : oc.status = Status.optimal ∧ oc.objVal = none
  · rw [if_pos hcond] at h
    simp at h
  · rw [if_neg hcond] at h
    cases hsol : oc.sol with
    | none => simp [hsol] at h
    | some a =>
        simp only [hsol] at h
        have hrec := Except.ok.inj h
        refine ⟨a, rfl, ?_⟩
        obtain rfl := hrec
        refine ⟨rfl, rfl, rfl, rfl, rfl, ?_, ?_, ?_, ?_, ?_⟩ <;> simp [HOURS]

/-- Concrete shared profiles used to instantiate the loop theorems. -/
def sharedW : SharedParams := ⟨5, fun _ => 1, fun _ => 1⟩

/-- A scenario engineered to be infeasible: both grid caps are zero while
the reference demand is positive. -/
def scenarioInf : Scenario := ⟨"S1", fun _ => 1, 0, 0, 1, 1⟩

/-- A benign scenario following the infeasible one in the batch. -/
def scenarioOk : Scenario := ⟨"S2", fun _ => 1, 10, 10, 1, 1⟩

/-- A second benign scenario. -/
def scenarioOk2 : Scenario := ⟨"S3", fun _ => 2, 10, 10, 1, 1⟩

/-- The solver response to an infeasible model: status infeasible, no
solution loaded, no objective value loaded (so reading `X` or `ObjVal`
raises). -/
def ocInfeasible : SolveOutcome := ⟨Status.infeasible, none, none⟩

/-- A solver response for an optimal solve: the all-zero assignment with
objective value 0. -/
def ocOptimal : SolveOutcome := ⟨Status.optimal, some fun _ => 0, some 0⟩

/-- A solver map that reports the engineered scenario infeasible and the
others optimal. -/
def solverW : Scenario → SolveOutcome :=
  fun sc => if sc.scenario = "S1" then ocInfeasible else ocOptimal

/-- Claim C1 evaluated on the code at the failing input: for the infeasible
scenario the per-scenario routine prints the scenario id, but then the
unconditional `var.X` extraction raises the attribute error, so no result
(and no absent-objective row) is produced, and the batch over the two
scenarios aborts with that error instead of proceeding to the second
scenario. -/
theorem claim_C1_raises_on_infeasible :
    (run_model_1b (scenarioArgs sharedW scenarioInf) ocInfeasible).2 =
      Except.error (GurobiError.attrUnavailable "X") ∧
    Effect.print "Model S1 is infeasible." ∈
      (run_model_1b (scenarioArgs sharedW scenarioInf) ocInfeasible).1 ∧
    scenarioLoop sharedW solverW [scenarioInf, scenarioOk] =
      Except.error (GurobiError.attrUnavailable "X") := by
  refine ⟨rfl, ?_, rfl⟩
  decide

/-- Claim C7: when every scenario of the list solves to optimality, the loop
returns one summary row per scenario, carrying that scenario id and the
solver objective, in input order; the row count equals the scenario count. -/
theorem claim_C7_summary (shared : SharedParams) (solver : Scenario → SolveOutcome)
    (scs : List Scenario)
    (hall : ∀ sc ∈ scs, (solver sc).status = Status.optimal ∧
      (solver sc).sol.isSome = true ∧ (solver sc).objVal.isSome = true) :
    scenarioLoop shared solver scs =
      Except.ok (scs.map fun sc => ⟨sc.scenario, (solver sc).objVal⟩) ∧
    (scs.map fun sc => (⟨sc.scenario, (solver sc).objVal⟩ : SummaryRow)).length =
      scs.length := by
  refine ⟨?_, by simp⟩
  induction scs with
  | nil => rfl
  | cons sc rest ih =>
      obtain ⟨hst, hsol, hobj⟩ := hall sc (by simp)
      obtain ⟨a, ha⟩ := Option.isSome_iff_exists.mp hsol
      obtain ⟨v, hv⟩ := Option.isSome_iff_exists.mp hobj
      have hrun : (run_model_1b (scenarioArgs shared sc) (solver sc)).2 =
          Except.ok
            { Lt := HOURS.map fun t => a ⟨VarKind.L, t⟩
              ut := HOURS.map fun t => a ⟨VarKind.u, t⟩
              ct := HOURS.map fun t => a ⟨VarKind.c, t⟩
              gt_imp := HOURS.map fun t => a ⟨VarKind.gImp, t⟩
              gt_exp := HOURS.map fun t => a ⟨VarKind.gExp, t⟩
              objective := (solver sc).objVal } := by
        unfold run_model_1b
        rw [if_neg (by simp [hv])]
        simp [ha, hst]
      have hrest := ih (fun s hs => hall s (List.mem_cons_of_mem _ hs))
      simp only [scenarioLoop, hrun, hrest, List.map_cons]

/-- The argument bundle of the benign scenario inside the main loop. -/
def argsOkW : ModelArgs := scenarioArgs sharedW scenarioOk

/-- The concrete result of the benign scenario under `ocOptimal`. -/
def resW : ScenarioResult :=
  ⟨HOURS.map fun _ => 0, HOURS.map fun _ => 0, HOURS.map fun _ => 0,
   HOURS.map fun _ => 0, HOURS.map fun _ => 0, some 0⟩

/-- Witness for claim C6 at a concrete optimal run. -/
theorem claim_C6_witness :
    (resW.objective = none ↔ ¬ ocOptimal.status = Status.optimal) ∧
    (ocOptimal.status = Status.optimal →
      resW.objective = ocOptimal.objVal ∧ ocOptimal.objVal.isSome = true) :=
  claim_C6_objective argsOkW ocOptimal resW rfl

/-- Witness for claim C9 at a concrete optimal run. -/
theorem claim_C9_witness :
    ∃ a, ocOptimal.sol = some a ∧
      resW.Lt = HOURS.map (fun t => a ⟨VarKind.L, t⟩) ∧
      resW.ut = HOURS.map (fun t => a ⟨VarKind.u, t⟩) ∧
      resW.ct = HOURS.map (fun t => a ⟨VarKind.c, t⟩) ∧
      resW.gt_imp = HOURS.map (fun t => a ⟨VarKind.gImp, t⟩) ∧
      resW.gt_exp = HOURS.map (fun t => a ⟨VarKind.gExp, t⟩) ∧
      resW.Lt.length = 24 ∧ resW.ut.length = 24 ∧ resW.ct.length = 24 ∧
      resW.gt_imp.length = 24 ∧ resW.gt_exp.length = 24 :=
  claim_C9_trajectories argsOkW ocOptimal resW rfl

/-- A solver map that reports every scenario optimal, with per-scenario
objective values. -/
def solverOpt : Scenario → SolveOutcome :=
  fun sc => ⟨Status.optimal, some fun _ => 0, some (if sc.scenario = "S2" then 7 else 9)⟩

/-- Witness for claim C7 on a concrete two-scenario batch. -/
theorem claim_C7_witness :
    scenarioLoop sharedW solverOpt [scenarioOk, scenarioOk2] =
      Except.ok ([scenarioOk, scenarioOk2].map fun sc =>
        ⟨sc.scenario, (solverOpt sc).objVal⟩) ∧
    ([scenarioOk, scenarioOk2].map fun sc =>
      (⟨sc.scenario, (solverOpt sc).objVal⟩ : SummaryRow)).length =
      [scenarioOk, scenarioOk2].length :=
  claim_C7_summary sharedW solverOpt [scenarioOk, scenarioOk2]
    (fun _ _ => ⟨rfl, rfl, rfl⟩)

/-- Bind on `Except` succeeds exactly when the first step returns a value on
which the continuation succeeds. -/
lemma except_bind_isOk {α β : Type} (x : Except PyError α) (f : α → Except PyError β) :
    (x >>= f).isOk = true ↔ ∃ a, x = Except.ok a ∧ (f a).isOk = true := by
  cases x <;> simp [Except.isOk, Except.toBool, Except.bind, Bind.bind]

/-- Reduction of bind on a success value. -/
lemma ok_bind {α β : Type} (a : α) (f : α → Except PyError β) :
    (Except.ok a >>= f : Except PyError β) = f a := rfl

/-- Key access succeeds exactly when the field is present, and then returns
that field. -/
lemma getItemKey_ok_iff (j : Json) (k : String) (v : Json) :
    j.getItemKey k = Except.ok v ↔ HasField j k ∧ v = fieldOf j k := by
  cases j with
  | obj fs =>
      cases hl : fs.lookup k with
      | none => simp [Json.getItemKey, HasField, fieldOf, hl]
      | some w => simp [Json.getItemKey, HasField, fieldOf, hl, eq_comm]
  | null => simp [Json.getItemKey, HasField, fieldOf]
  | num q => simp [Json.getItemKey, HasField, fieldOf]
  | str s => simp [Json.getItemKey, HasField, fieldOf]
  | arr xs => simp [Json.getItemKey, HasField, fieldOf]

/-- Index access succeeds exactly when the index is in range, and then
returns that entry. -/
lemma getItemIdx_ok_iff (j : Json) (i : ℕ) (v : Json) :
    j.getItemIdx i = Except.ok v ↔ HasIdx j i ∧ v = idxOf j i := by
  cases j with
  | arr xs =>
      cases hg : xs[i]? with
      | none =>
          have hge : xs.length ≤ i := List.getElem?_eq_none_iff.mp hg
          simp [Json.getItemIdx, hg, HasIdx, idxOf, Nat.not_lt.mpr hge]
      | some w =>
          have hlt : i < xs.length := by
            by_contra hge
            rw [List.getElem?_eq_none (by omega)] at hg
            exact absurd hg (by simp)
          simp [Json.getItemIdx, hg, HasIdx, idxOf, hlt, eq_comm]
  | null => simp [Json.getItemIdx, HasIdx, idxOf]
  | num q => simp [Json.getItemIdx, HasIdx, idxOf]
  | str s => simp [Json.getItemIdx, HasIdx, idxOf]
  | obj fs => simp [Json.getItemIdx, HasIdx, idxOf]

/-- Key access on a value with the field present. -/
lemma hasField_getItemKey {j : Json} {k : String} (h : HasField j k) :
    j.getItemKey k = Except.ok (fieldOf j k) :=
  (getItemKey_ok_iff j k (fieldOf j k)).mpr ⟨h, rfl⟩

/-- Index access on a value with the index in range. -/
lemma hasIdx_getItemIdx {j : Json} {i : ℕ} (h : HasIdx j i) :
    j.getItemIdx i = Except.ok (idxOf j i) :=
  (getItemIdx_ok_iff j i (idxOf j i)).mpr ⟨h, rfl⟩

/-- Claim C2 (amended): the load phase succeeds exactly when every field and
index along its three access paths is present; when one is absent it fails
(the error aborts before any scenario is processed).  No condition on
profile lengths appears: the load phase performs no length validation. -/
theorem claim_C2_load_phase (bus_params der_production appl_params usage_preference
    scenarios : Json) :
    (loadPhase bus_params der_production appl_params usage_preference scenarios).isOk =
      true ↔ RequiredShape der_production appl_params usage_preference := by
  constructor
  · intro h
    unfold loadPhase at h
    rw [except_bind_isOk] at h
    obtain ⟨loads, hl, h⟩ := h
    obtain ⟨hf1, rfl⟩ := (getItemKey_ok_iff _ _ _).mp hl
    rw [except_bind_isOk] at h
    obtain ⟨load0, hl, h⟩ := h
    obtain ⟨hf2, rfl⟩ := (getItemIdx_ok_iff _ _ _).mp hl
    rw [except_bind_isOk] at h
    obtain ⟨lmax, hl, h⟩ := h
    obtain ⟨hf3, rfl⟩ := (getItemKey_ok_iff _ _ _).mp hl
    rw [except_bind_isOk] at h
    obtain ⟨der0, hl, h⟩ := h
    obtain ⟨hf4, rfl⟩ := (getItemIdx_ok_iff _ _ _).mp hl
    rw [except_bind_isOk] at h
    obtain ⟨pv, hl, h⟩ := h
    obtain ⟨hf5, rfl⟩ := (getItemKey_ok_iff _ _ _).mp hl
    rw [except_bind_isOk] at h
    obtain ⟨usage0, hl, h⟩ := h
    obtain ⟨hf6, rfl⟩ := (getItemIdx_ok_iff _ _ _).mp hl
    rw [except_bind_isOk] at h
    obtain ⟨prefs, hl, h⟩ := h
    obtain ⟨hf7, rfl⟩ := (getItemKey_ok_iff _ _ _).mp hl
    rw [except_bind_isOk] at h
    obtain ⟨pref0, hl, h⟩ := h
    obtain ⟨hf8, rfl⟩ := (getItemIdx_ok_iff _ _ _).mp hl
    rw [except_bind_isOk] at h
    obtain ⟨lref, hl, h⟩ := h
    obtain ⟨hf9, rfl⟩ := (getItemKey_ok_iff _ _ _).mp hl
    exact ⟨hf1, hf2, hf3, hf4, hf5, hf6, hf7, hf8, hf9⟩
  · rintro ⟨h1, h2, h3, h4, h5, h6, h7, h8, h9⟩
    unfold loadPhase
    rw [hasField_getItemKey h1, ok_bind, hasIdx_getItemIdx h2, ok_bind,
      hasField_getItemKey h3, ok_bind, hasIdx_getItemIdx h4, ok_bind,
      hasField_getItemKey h5, ok_bind, hasIdx_getItemIdx h6, ok_bind,
      hasField_getItemKey h7, ok_bind, hasIdx_getItemIdx h8, ok_bind,
      hasField_getItemKey h9, ok_bind]
    rfl

/-- An appliance bundle with all required fields present. -/
def applOkJson : Json :=
  Json.obj [("load", Json.arr [Json.obj [("max_load_kWh_per_hour", Json.num 5)]])]

/-- A DER production bundle whose PV profile has only 23 entries. -/
def derProfile23 : Json :=
  Json.arr [Json.obj [("hourly_profile_ratio", Json.arr (List.replicate 23 (Json.num 1)))]]

/-- A usage-preference bundle with a 24-entry reference profile. -/
def usageOkJson : Json :=
  Json.arr [Json.obj [("load_preferences",
    Json.arr [Json.obj [("hourly_profile_ratio",
      Json.arr (List.replicate 24 (Json.num 1)))]])]]

/-- Counterexample to claim C2 as stated: an input bundle whose PV profile
has 23 entries, not 24, on which the load phase nevertheless succeeds and
hands the short profile on unchanged — no `MalformedInputError` analogue is
raised for a wrong profile length. -/
theorem claim_C2_counterexample :
    loadPhase Json.null derProfile23 applOkJson usageOkJson (Json.arr []) =
      Except.ok ⟨0, Json.num 5, Json.arr (List.replicate 23 (Json.num 1)),
        Json.arr (List.replicate 24 (Json.num 1)), Json.arr []⟩ ∧
    (List.replicate 23 (Json.num 1)).length ≠ 24 := by
  exact ⟨rfl, by simp⟩

/-- Two character lists ending in the two distinct plot-file suffixes are
never equal: the suffixes differ five characters from the end. -/
lemma cross_suffix_ne (x y : List Char) :
    x ++ ("-AllDecisionVariables.png").data ≠ y ++ ("-EnergyPriceVsGrid.png").data := by
  intro h
  have hr := congrArg List.reverse h
  rw [List.reverse_append, List.reverse_append] at hr
  have h4 := congrArg (fun l => l[4]?) hr
  simp only [List.getElem?_append_left (by decide :
      (4 : ℕ) < ("-AllDecisionVariables.png").data.reverse.length),
    List.getElem?_append_left (by decide :
      (4 : ℕ) < ("-EnergyPriceVsGrid.png").data.reverse.length)] at h4
  exact absurd h4 (by decide)

/-- Plot paths of the same kind coincide only when the scenario ids
coincide, for a common tag. -/
lemma plotPath1_inj {a₁ a₂ : ModelArgs} (hpre : a₁.modelTag = a₂.modelTag)
    (h : plotPath1 a₁ = plotPath1 a₂) : a₁.scenario = a₂.scenario := by
  have hd := congrArg String.data h
  simp only [plotPath1, String.data_append] at hd
  rw [hpre] at hd
  exact String.ext (List.append_cancel_left (List.append_cancel_right hd))

/-- Plot paths of the second kind coincide only when the scenario ids
coincide, for a common tag. -/
lemma plotPath2_inj {a₁ a₂ : ModelArgs} (hpre : a₁.modelTag = a₂.modelTag)
    (h : plotPath2 a₁ = plotPath2 a₂) : a₁.scenario = a₂.scenario := by
  have hd := congrArg String.data h
  simp only [plotPath2, String.data_append] at hd
  rw [hpre] at hd
  exact String.ext (List.append_cancel_left (List.append_cancel_right hd))

/-- A first-kind plot path never equals a second-kind plot path. -/
lemma plotPath1_ne_plotPath2 (a₁ a₂ : ModelArgs) : plotPath1 a₁ ≠ plotPath2 a₂ := by
  intro h
  have hd := congrArg String.data h
  simp only [plotPath1, plotPath2, String.data_append] at hd
  exact cross_suffix_ne _ _ hd

/-- Any plot write made by `run_model_1b` targets one of its two
scenario-specific paths. -/
lemma savefig_mem_run (args : ModelArgs) (oc : SolveOutcome) (p : String)
    (h : Effect.savefig p ∈ (run_model_1b args oc).1) :
    p = plotPath1 args ∨ p = plotPath2 args := by
  unfold run_model_1b at h
  by_cases hcond : oc.status = Status.optimal ∧ oc.objVal = none
  · rw [if_pos hcond] at h
    simp at h
  · rw [if_neg hcond] at h
    cases hsol : oc.sol with
    | none => simp [hsol] at h
    | some a =>
        simp [hsol] at h
        exact h

/-- Claim C10: every call of `run_model_1b`, for any arguments and any
solver outcome, records the creation of the fixed directory
`src/scenario-results` as its first effect, before the model is built or
solved; and the only other writes are the two scenario-specific plot files,
so two runs on distinct scenario ids (with a common tag, as in the main
loop) never write a common path. -/
theorem claim_C10_side_effects (args1 args2 : ModelArgs) (oc1 oc2 : SolveOutcome)
    (hpre : args1.modelTag = args2.modelTag) (hid : args1.scenario ≠ args2.scenario) :
    (∃ rest, (run_model_1b args1 oc1).1 =
      Effect.mkdir "src/scenario-results" :: Effect.build :: Effect.solve :: rest) ∧
    ∀ p, Effect.savefig p ∈ (run_model_1b args1 oc1).1 →
      Effect.savefig p ∉ (run_model_1b args2 oc2).1 := by
  constructor
  · unfold run_model_1b
    by_cases hcond : oc1.status = Status.optimal ∧ oc1.objVal = none
    · rw [if_pos hcond]
      exact ⟨[], rfl⟩
    · rw [if_neg hcond]
      cases oc1.sol with
      | none => exact ⟨[Effect.print (statusMessage args1.scenario oc1)], rfl⟩
      | some a =>
          exact ⟨[Effect.print (statusMessage args1.scenario oc1),
            Effect.savefig (plotPath1 args1), Effect.savefig (plotPath2 args1)], rfl⟩
  · intro p hp1 hp2
    have d1 := savefig_mem_run args1 oc1 p hp1
    have d2 := savefig_mem_run args2 oc2 p hp2
    rcases d1 with rfl | rfl
    · rcases d2 with he | he
      · exact hid (plotPath1_inj hpre he)
      · exact plotPath1_ne_plotPath2 args1 args2 he
    · rcases d2 with he | he
      · exact plotPath1_ne_plotPath2 args2 args1 he.symm
      · exact hid (plotPath2_inj hpre he)

/-- The argument bundle of the second benign scenario inside the main loop. -/
def argsW2 : ModelArgs := scenarioArgs sharedW scenarioOk2

/-- Witness for claim C10 on two concrete runs with distinct scenario ids
and different solve outcomes. -/
theorem claim_C10_witness :
    (∃ rest, (run_model_1b argsOkW ocOptimal).1 =
      Effect.mkdir "src/scenario-results" :: Effect.build :: Effect.solve :: rest) ∧
    ∀ p, Effect.savefig p ∈ (run_model_1b argsOkW ocOptimal).1 →
      Effect.savefig p ∉ (run_model_1b argsW2 ocInfeasible).1 :=
  claim_C10_side_effects argsOkW argsW2 ocOptimal ocInfeasible rfl (by decide)
